import Mathlib

/-!
Verification of the BotMQL5 backtest engine (Python/backtest/*.py) against its
natural-language specification.  Prices, volumes and balances are embedded as
rationals; pandas/NumPy float results that can be NaN or infinite (the RSI and
VWAP pipelines divide by zero) are embedded in an extended value type `EF`
mirroring IEEE-754 special-value propagation (rationals carry no signed zero,
so the single zero behaves as +0).  Timestamps are minutes since an epoch
(`ℤ`); a calendar date is the day index `time / 1440`.
-/

/-- Extended float value: NaN, plus/minus infinity, or a finite rational. -/
inductive EF where
  | nan : EF
  | pinf : EF
  | ninf : EF
  | fin : ℚ → EF
deriving DecidableEq

/-- IEEE-style addition on extended values. -/
def EF.add : EF → EF → EF
  | .nan, _ => .nan
  | _, .nan => .nan
  | .pinf, .ninf => .nan
  | .ninf, .pinf => .nan
  | .pinf, _ => .pinf
  | _, .pinf => .pinf
  | .ninf, _ => .ninf
  | _, .ninf => .ninf
  | .fin a, .fin b => .fin (a + b)

/-- IEEE-style subtraction on extended values. -/
def EF.sub : EF → EF → EF
  | .nan, _ => .nan
  | _, .nan => .nan
  | .pinf, .pinf => .nan
  | .ninf, .ninf => .nan
  | .pinf, _ => .pinf
  | .ninf, _ => .ninf
  | .fin _, .pinf => .ninf
  | .fin _, .ninf => .pinf
  | .fin a, .fin b => .fin (a - b)

/-- IEEE-style division on extended values (zero acts as +0). -/
def EF.div : EF → EF → EF
  | .nan, _ => .nan
  | _, .nan => .nan
  | .pinf, .pinf => .nan
  | .pinf, .ninf => .nan
  | .ninf, .pinf => .nan
  | .ninf, .ninf => .nan
  | .pinf, .fin b => if 0 ≤ b then .pinf else .ninf
  | .ninf, .fin b => if 0 ≤ b then .ninf else .pinf
  | .fin _, .pinf => .fin 0
  | .fin _, .ninf => .fin 0
  | .fin a, .fin b =>
      if b = 0 then (if 0 < a then .pinf else if a < 0 then .ninf else .nan)
      else .fin (a / b)

/-! ## Indicator pipeline (SignalEngineBT, signal_engine_bt.py)

`ewm` is pandas `Series.ewm(span=period, adjust=False).mean()`:
`y₀ = x₀`, `yₜ = (1-α)·yₜ₋₁ + α·xₜ` with `α = 2/(span+1)`.
`gains`/`losses` are `delta.where(delta > 0, 0.0)` and `-delta.where(delta < 0, 0.0)`
of `close.diff()`; the first delta is NaN, and `where` maps it to `0.0` because
`NaN > 0` and `NaN < 0` are both false. -/

def alphaOfSpan (span : ℕ) : ℚ := 2 / ((span : ℚ) + 1)

def ewmAux (a prev : ℚ) : List ℚ → List ℚ
  | [] => []
  | x :: xs => ((1 - a) * prev + a * x) :: ewmAux a ((1 - a) * prev + a * x) xs

def ewm (a : ℚ) : List ℚ → List ℚ
  | [] => []
  | x :: xs => x :: ewmAux a x xs

def gainsAux (prev : ℚ) : List ℚ → List ℚ
  | [] => []
  | x :: xs => (if 0 < x - prev then x - prev else 0) :: gainsAux x xs

def gains : List ℚ → List ℚ
  | [] => []
  | c :: rest => 0 :: gainsAux c rest

def lossesAux (prev : ℚ) : List ℚ → List ℚ
  | [] => []
  | x :: xs => (if x - prev < 0 then -(x - prev) else 0) :: lossesAux x xs

def losses : List ℚ → List ℚ
  | [] => []
  | c :: rest => 0 :: lossesAux c rest

/-- `avg_gain` column of `SignalEngineBT._add_rsi`. -/
def avgGain (closes : List ℚ) (period : ℕ) : List ℚ :=
  ewm (alphaOfSpan period) (gains closes)

/-- `avg_loss` column of `SignalEngineBT._add_rsi`. -/
def avgLoss (closes : List ℚ) (period : ℕ) : List ℚ :=
  ewm (alphaOfSpan period) (losses closes)

/-- One entry of the RSI column: `100 - 100 / (1 + avg_gain / avg_loss)`. -/
def rsiOf (g l : ℚ) : EF :=
  EF.sub (.fin 100) (EF.div (.fin 100) (EF.add (.fin 1) (EF.div (.fin g) (.fin l))))

/-- The `rsi` column produced by `SignalEngineBT._add_rsi`. -/
def rsiCol (closes : List ℚ) (period : ℕ) : List EF :=
  List.zipWith rsiOf (avgGain closes period) (avgLoss closes period)

/-- One OHLCV row of the M5 dataframe handed to `_add_vwap`. -/
structure BarV where
  time : ℤ
  high : ℚ
  low : ℚ
  close : ℚ
  volume : ℚ
deriving DecidableEq

/-- Calendar date of a bar (`pd.to_datetime(df["time"]).dt.date`), with time
in minutes since the epoch. -/
def BarV.date (b : BarV) : ℤ := b.time / 1440

/-- `typical_price = (high + low + close) / 3`. -/
def typicalPrice (b : BarV) : ℚ := (b.high + b.low + b.close) / 3

/-- The `vwap` value at row `i` after the daily `groupby("date")` recomputation
in `SignalEngineBT._add_vwap`: cumulative `typical_price * volume` over the
rows at index ≤ i sharing row i's date, divided by the matching cumulative
volume. -/
def vwapAt (df : List BarV) (i : ℕ) : EF :=
  let d := (df.getD i ⟨0, 0, 0, 0, 0⟩).date
  let grp := (df.take (i + 1)).filter (fun b => b.date = d)
  EF.div (.fin ((grp.map (fun b => typicalPrice b * b.volume)).sum))
    (.fin ((grp.map BarV.volume).sum))

/-- The whole `vwap` column of `SignalEngineBT._add_vwap`. -/
def vwapCol (df : List BarV) : List EF :=
  (List.range df.length).map (vwapAt df)

/-! ## Trade lifecycle (trade.py)

The Python `Trade` dataclass mutates in place; here each operation returns the
updated trade (paired with the returned profit where the source returns one).
-/

inductive TradeType where
  | BUY : TradeType
  | SELL : TradeType
deriving DecidableEq

inductive TradeStatus where
  | OPEN : TradeStatus
  | CLOSED : TradeStatus
  | PARTIAL_CLOSE : TradeStatus
deriving DecidableEq

structure Trade where
  ticket : ℕ
  symbol : String
  trade_type : TradeType
  entry_time : ℤ
  entry_price : ℚ
  volume : ℚ
  stop_loss : ℚ
  takeProfitPartial : ℚ
  take_profit_final : ℚ
  status : TradeStatus
  exit_time : Option ℤ
  exit_price : Option ℚ
  volume_open : ℚ
  volume_closed : ℚ
  profit : ℚ
  profit_pips : ℚ
  commission : ℚ
  swap : ℚ
  comment : String
  break_even_triggered : Bool
  partialCloseTriggered : Bool
deriving DecidableEq

/-- Dataclass construction plus `__post_init__` (`volume_open = volume`). -/
def mkTrade (ticket : ℕ) (symbol : String) (trade_type : TradeType)
    (entry_time : ℤ) (entry_price volume stop_loss tpPartial tpFinal : ℚ)
    (comment : String) : Trade :=
  { ticket := ticket
    symbol := symbol
    trade_type := trade_type
    entry_time := entry_time
    entry_price := entry_price
    volume := volume
    stop_loss := stop_loss
    takeProfitPartial := tpPartial
    take_profit_final := tpFinal
    status := .OPEN
    exit_time := none
    exit_price := none
    volume_open := volume
    volume_closed := 0
    profit := 0
    profit_pips := 0
    commission := 0
    swap := 0
    comment := comment
    break_even_triggered := false
    partialCloseTriggered := false }

/-- Pips of a price move in the trade's direction (`(a - b) * 10000`). -/
def Trade.pipsAt (t : Trade) (current_price : ℚ) : ℚ :=
  match t.trade_type with
  | .BUY => (current_price - t.entry_price) * 10000
  | .SELL => (t.entry_price - current_price) * 10000

/-- `Trade.update_profit`. -/
def Trade.update_profit (t : Trade) (current_price pip_value : ℚ) : Trade :=
  if t.status = .CLOSED then t
  else
    { t with
      profit_pips := t.pipsAt current_price
      profit := t.pipsAt current_price * pip_value * t.volume_open }

/-- `Trade.check_stop_loss`. -/
def Trade.check_stop_loss (t : Trade) (current_price : ℚ) : Bool :=
  match t.trade_type with
  | .BUY => decide (current_price ≤ t.stop_loss)
  | .SELL => decide (t.stop_loss ≤ current_price)

/-- `Trade.check_take_profit_partial`. -/
def Trade.checkTakeProfitPartial (t : Trade) (current_price : ℚ) : Bool :=
  if t.partialCloseTriggered then false
  else
    match t.trade_type with
    | .BUY => decide (t.takeProfitPartial ≤ current_price)
    | .SELL => decide (current_price ≤ t.takeProfitPartial)

/-- `Trade.check_take_profit_final`. -/
def Trade.check_take_profit_final (t : Trade) (current_price : ℚ) : Bool :=
  match t.trade_type with
  | .BUY => decide (t.take_profit_final ≤ current_price)
  | .SELL => decide (current_price ≤ t.take_profit_final)

/-- `Trade.close_partial`; returns the updated trade and the event profit. -/
def Trade.closePartial (t : Trade) (price : ℚ) (_time : ℤ) (pip_value percent : ℚ) :
    Trade × ℚ :=
  if t.status = .CLOSED then (t, 0)
  else
    ({ t with
        volume_closed := t.volume_closed + t.volume_open * percent
        volume_open := t.volume_open - t.volume_open * percent
        profit := t.profit + t.pipsAt price * pip_value * (t.volume_open * percent)
        partialCloseTriggered := true
        status := .PARTIAL_CLOSE },
      t.pipsAt price * pip_value * (t.volume_open * percent))

/-- `Trade.move_to_break_even`. -/
def Trade.move_to_break_even (t : Trade) : Trade :=
  if t.break_even_triggered then t
  else { t with stop_loss := t.entry_price, break_even_triggered := true }

/-- `Trade.close`; returns the updated trade and the event profit. -/
def Trade.close (t : Trade) (price : ℚ) (time : ℤ) (pip_value : ℚ)
    (reason : String) : Trade × ℚ :=
  if t.status = .CLOSED then (t, 0)
  else
    ({ t with
        volume_closed := t.volume_closed + t.volume_open
        volume_open := 0
        profit := t.profit + t.pipsAt price * pip_value * t.volume_open
        status := .CLOSED
        exit_time := some time
        exit_price := some price
        comment := reason },
      t.pipsAt price * pip_value * t.volume_open)

/-! ## Portfolio ledger (portfolio.py)

Python mutates a `Portfolio` object; here each method returns the updated
record.  The `current_prices` dict is a partial map from symbol to price.
`trade in self.open_trades` is Python dataclass value equality, embedded as
list membership over `DecidableEq Trade`; `list.remove(trade)` is
`List.erase` (first occurrence). -/

structure EquityPoint where
  time : ℤ
  balance : ℚ
  equity : ℚ
  floating_pl : ℚ
deriving DecidableEq

structure Portfolio where
  initial_balance : ℚ
  balance : ℚ
  equity : ℚ
  leverage : ℤ
  commission_per_lot : ℚ
  spread_pips : ℚ
  open_trades : List Trade
  closed_trades : List Trade
  total_trades : ℕ
  winning_trades : ℕ
  losing_trades : ℕ
  gross_profit : ℚ
  gross_loss : ℚ
  peak_balance : ℚ
  max_drawdown : ℚ
  max_drawdown_percent : ℚ
  equity_curve : List EquityPoint
  daily_trades : ℕ
  daily_profit : ℚ
  current_date : Option ℤ
deriving DecidableEq

/-- `Portfolio.__init__`. -/
def Portfolio.init (initial_balance : ℚ) (leverage : ℤ)
    (commission_per_lot spread_pips : ℚ) : Portfolio :=
  { initial_balance := initial_balance
    balance := initial_balance
    equity := initial_balance
    leverage := leverage
    commission_per_lot := commission_per_lot
    spread_pips := spread_pips
    open_trades := []
    closed_trades := []
    total_trades := 0
    winning_trades := 0
    losing_trades := 0
    gross_profit := 0
    gross_loss := 0
    peak_balance := initial_balance
    max_drawdown := 0
    max_drawdown_percent := 0
    equity_curve := []
    daily_trades := 0
    daily_profit := 0
    current_date := none }

/-- Does the character list start with `"JPY"`? -/
def isJPYAt : List Char → Bool
  | 'J' :: 'P' :: 'Y' :: _ => true
  | _ => false

/-- Python `"JPY" in symbol`: some position of the string starts `"JPY"`. -/
def hasJPY : List Char → Bool
  | [] => false
  | c :: rest => isJPYAt (c :: rest) || hasJPY rest

/-- `Portfolio._get_pip_value`: `"JPY" in symbol` scales by 0.01, else 0.0001,
times `volume * 100000`. -/
def Portfolio.getPipValue (symbol : String) (volume : ℚ) : ℚ :=
  if hasJPY symbol.data then 0.01 * volume * 100000
  else 0.0001 * volume * 100000

/-- `Portfolio.add_trade`: append to the open set, deduct entry commission. -/
def Portfolio.add_trade (p : Portfolio) (trade : Trade) : Portfolio :=
  { p with
    open_trades := p.open_trades ++
      [{ trade with commission := trade.commission + p.commission_per_lot * trade.volume }]
    total_trades := p.total_trades + 1
    balance := p.balance - p.commission_per_lot * trade.volume }

/-- The loop body of `Portfolio.update_equity`: refresh each open trade whose
symbol has a current price and accumulate its floating profit. -/
def updateEquityStep (current_prices : String → Option ℚ)
    (acc : List Trade × ℚ) (trade : Trade) : List Trade × ℚ :=
  match current_prices trade.symbol with
  | some price =>
      let t := trade.update_profit price (Portfolio.getPipValue trade.symbol trade.volume)
      (acc.1 ++ [t], acc.2 + t.profit)
  | none => (acc.1 ++ [trade], acc.2)

/-- `Portfolio.update_equity`. -/
def Portfolio.update_equity (p : Portfolio) (current_time : ℤ)
    (current_prices : String → Option ℚ) : Portfolio :=
  let r := p.open_trades.foldl (updateEquityStep current_prices) ([], 0)
  let equity := p.balance + r.2
  let peak := if p.peak_balance < equity then equity else p.peak_balance
  let drawdown := peak - equity
  let drawdown_percent := drawdown / peak * 100
  { p with
    open_trades := r.1
    equity := equity
    peak_balance := peak
    max_drawdown := if p.max_drawdown < drawdown then drawdown else p.max_drawdown
    max_drawdown_percent :=
      if p.max_drawdown < drawdown then drawdown_percent else p.max_drawdown_percent
    equity_curve := p.equity_curve ++ [⟨current_time, p.balance, equity, r.2⟩] }

/-- `Portfolio.close_trade`. -/
def Portfolio.close_trade (p : Portfolio) (trade : Trade) (price : ℚ)
    (time : ℤ) (reason : String) : Portfolio :=
  if trade ∈ p.open_trades then
    let res := trade.close price time (Portfolio.getPipValue trade.symbol trade.volume) reason
    let commission := p.commission_per_lot * res.1.volume_closed
    let profit := res.2 - commission
    { p with
      balance := p.balance + profit
      winning_trades := if 0 < profit then p.winning_trades + 1 else p.winning_trades
      gross_profit := if 0 < profit then p.gross_profit + profit else p.gross_profit
      losing_trades := if 0 < profit then p.losing_trades else p.losing_trades + 1
      gross_loss := if 0 < profit then p.gross_loss else p.gross_loss + |profit|
      open_trades := p.open_trades.erase trade
      closed_trades := p.closed_trades ++
        [{ res.1 with commission := res.1.commission + commission }]
      daily_trades := p.daily_trades + 1
      daily_profit := p.daily_profit + profit }
  else p

/-- Replace the first occurrence of `a` in the list by `b` (the Python object
mutated in place stays at its position in `open_trades`). -/
def replaceFirst (l : List Trade) (a b : Trade) : List Trade :=
  match l with
  | [] => []
  | x :: xs => if x = a then b :: xs else x :: replaceFirst xs a b

/-- `Portfolio.partial_close_trade`. -/
def Portfolio.partialCloseTrade (p : Portfolio) (trade : Trade) (price : ℚ)
    (time : ℤ) (percent : ℚ) : Portfolio :=
  if trade ∈ p.open_trades then
    let res := trade.closePartial price time
      (Portfolio.getPipValue trade.symbol trade.volume) percent
    let commission := p.commission_per_lot * (trade.volume * percent)
    let profit := res.2 - commission
    let t2 := ({ res.1 with commission := res.1.commission + commission }).move_to_break_even
    { p with
      balance := p.balance + profit
      open_trades := replaceFirst p.open_trades trade t2 }
  else p

/-- `Portfolio.reset_daily_stats`. -/
def Portfolio.reset_daily_stats (p : Portfolio) : Portfolio :=
  { p with daily_trades := 0, daily_profit := 0 }

/-- `Portfolio.check_daily_limits`. -/
def Portfolio.check_daily_limits (p : Portfolio) (max_trades : ℕ)
    (max_loss_percent : ℚ) : Bool :=
  if max_trades ≤ p.daily_trades then false
  else if p.daily_profit < 0 ∧ max_loss_percent ≤ |p.daily_profit| / p.balance * 100 then
    false
  else true

/-- `Portfolio.check_global_drawdown`. -/
def Portfolio.check_global_drawdown (p : Portfolio) (max_drawdown_percent : ℚ) : Bool :=
  decide (p.max_drawdown_percent < max_drawdown_percent)

/-! ## Backtester pieces (backtester.py) -/

inductive SignalType where
  | NONE : SignalType
  | BUY : SignalType
  | SELL : SignalType
deriving DecidableEq

/-- `SignalType.value` of the Python enum. -/
def SignalType.value : SignalType → String
  | .NONE => "NONE"
  | .BUY => "BUY"
  | .SELL => "SELL"

/-- The backtester configuration fields used by `_open_trade` and
`_calculate_lot_size`. -/
structure BTConfig where
  symbol : String
  spread_pips : ℚ
  risk_per_trade : ℚ
  stop_loss_pips : ℚ
  rrPartial : ℚ
  rr_final : ℚ
deriving DecidableEq

/-- Python 3 `round(q, 2)` (banker's rounding at half), on exact rationals. -/
def roundHalfEven (q : ℚ) : ℤ :=
  if q - ⌊q⌋ < 1 / 2 then ⌊q⌋
  else if 1 / 2 < q - ⌊q⌋ then ⌊q⌋ + 1
  else if ⌊q⌋ % 2 = 0 then ⌊q⌋ else ⌊q⌋ + 1

def round2 (q : ℚ) : ℚ := (roundHalfEven (q * 100) : ℚ) / 100

/-- `Backtester._calculate_lot_size`. -/
def calculateLotSize (balance risk_per_trade entry_price stop_loss : ℚ) : ℚ :=
  let risk_amount := balance * (risk_per_trade / 100)
  let sl_distance_pips := |entry_price - stop_loss| * 10000
  if sl_distance_pips = 0 then 0.01
  else
    let pip_value : ℚ := 10
    let lot_size := risk_amount / (sl_distance_pips * pip_value)
    max 0.01 (round2 lot_size)

/-- `Backtester._open_trade`: returns the created trade, or `none` on the
`volume <= 0` skip branch. -/
def openTrade (cfg : BTConfig) (signal : SignalType) (bar_close : ℚ)
    (current_time : ℤ) (balance : ℚ) (ticket : ℕ) : Option Trade :=
  let entry_price :=
    if signal = .BUY then bar_close + cfg.spread_pips * 0.0001 else bar_close
  let trade_type := if signal = .BUY then TradeType.BUY else TradeType.SELL
  let sl_distance := cfg.stop_loss_pips * 0.0001
  let stop_loss :=
    match trade_type with
    | .BUY => entry_price - sl_distance
    | .SELL => entry_price + sl_distance
  let tpPartial :=
    match trade_type with
    | .BUY => entry_price + sl_distance * cfg.rrPartial
    | .SELL => entry_price - sl_distance * cfg.rrPartial
  let tpFinal :=
    match trade_type with
    | .BUY => entry_price + sl_distance * cfg.rr_final
    | .SELL => entry_price - sl_distance * cfg.rr_final
  let volume := calculateLotSize balance cfg.risk_per_trade entry_price stop_loss
  if volume ≤ 0 then none
  else some (mkTrade ticket cfg.symbol trade_type current_time entry_price volume
    stop_loss tpPartial tpFinal ("Signal: " ++ signal.value))

/-- What `Backtester._manage_open_positions` decides for one open trade on one
bar: full close (stop loss or final TP), partial close, or nothing.  The
`continue` statements make the three checks mutually exclusive. -/
inductive ManageAction where
  | closeFull : ℚ → String → ManageAction
  | partialAt : ℚ → ManageAction
  | hold : ManageAction
deriving DecidableEq

/-- `low if trade.trade_type == TradeType.BUY else high` (stop-loss check). -/
def slCheckPrice (t : Trade) (high low : ℚ) : ℚ :=
  match t.trade_type with
  | .BUY => low
  | .SELL => high

/-- `high if trade.trade_type == TradeType.BUY else low` (take-profit checks). -/
def tpCheckPrice (t : Trade) (high low : ℚ) : ℚ :=
  match t.trade_type with
  | .BUY => high
  | .SELL => low

/-- The loop body of `Backtester._manage_open_positions` for one trade. -/
def manageAction (t : Trade) (high low : ℚ) : ManageAction :=
  if t.check_stop_loss (slCheckPrice t high low) then .closeFull t.stop_loss "Stop Loss"
  else if t.check_take_profit_final (tpCheckPrice t high low) then
    .closeFull t.take_profit_final "Take Profit Final"
  else if t.checkTakeProfitPartial (tpCheckPrice t high low) then
    .partialAt t.takeProfitPartial
  else .hold

/-- The scan over open trades in `_manage_open_positions`, building
`trades_to_close` and `trades_to_partial_close`. -/
def manageScan (trades : List Trade) (high low : ℚ) :
    List (Trade × ℚ × String) × List (Trade × ℚ) :=
  match trades with
  | [] => ([], [])
  | t :: rest =>
      let r := manageScan rest high low
      match manageAction t high low with
      | .closeFull price reason => ((t, price, reason) :: r.1, r.2)
      | .partialAt price => (r.1, (t, price) :: r.2)
      | .hold => r

/-- `Backtester._manage_open_positions`: partial closes are executed first,
then full closes, via the portfolio. -/
def manageOpenPositions (p : Portfolio) (high low : ℚ) (current_time : ℤ)
    (partialClosePercent : ℚ) : Portfolio :=
  let r := manageScan p.open_trades high low
  let p1 := r.2.foldl
    (fun acc tp => acc.partialCloseTrade tp.1 tp.2 current_time partialClosePercent) p
  r.1.foldl (fun acc tc => acc.close_trade tc.1 tc.2.1 current_time tc.2.2) p1

/-! ## Statistics engine (statistics.py) -/

/-- The counters of `Statistics._basic_stats`. -/
structure BasicStats where
  total : ℕ
  winners : ℕ
  losers : ℕ
  breakeven : ℕ
deriving DecidableEq

/-- `Statistics._basic_stats` tallies (win rate omitted). -/
def basicStats (trades : List Trade) : BasicStats :=
  { total := trades.length
    winners := trades.countP (fun t => decide (0 < t.profit))
    losers := trades.countP (fun t => decide (t.profit < 0))
    breakeven := trades.countP (fun t => decide (t.profit = 0)) }

/-! ## Concrete runs and auxiliary definitions used by the verification -/

/-- A run of successive `update_equity` calls (one per simulated bar). -/
def runUpdates (p : Portfolio) (us : List (ℤ × (String → Option ℚ))) : Portfolio :=
  us.foldl (fun acc u => acc.update_equity u.1 u.2) p

/-- The `volume_open + volume_closed == volume` accounting invariant. -/
def volInv (t : Trade) : Prop := t.volume_open + t.volume_closed = t.volume

/-- Price feed holding a single symbol, as the backtester builds per bar. -/
def c1prices (q : ℚ) : String → Option ℚ :=
  fun s => if s = "EURUSD" then some q else none

def c1tr : Trade := mkTrade 1 "EURUSD" .BUY 0 1 (1/10) (9988/10000) (10024/10000) (10036/10000) ""

/-- State after opening a 0.1-lot BUY at 1.0000 on a 100-unit account and one
equity update at price 0.9900 (equity 90, peak 100, drawdown 10 = 10%). -/
def c1p1 : Portfolio :=
  ((Portfolio.init 100 100 0 1).add_trade c1tr).update_equity 0 (c1prices (99/100))

/-- Two further equity updates: price 1.9000 lifts the peak to 1000, price
1.8890 then sets a larger absolute drawdown 11 at the higher peak (1.1%). -/
def c1p3 : Portfolio :=
  (c1p1.update_equity 1 (c1prices (19/10))).update_equity 2 (c1prices (1889/1000))

def c2tr0 : Trade := mkTrade 1 "EURUSD" TradeType.BUY 0 1 1 (9988/10000) (10024/10000) (10036/10000) ""

/-- `c2tr0` after `add_trade` charged the 1-per-lot entry commission. -/
def c2trA : Trade := { c2tr0 with commission := 1 }

/-- Portfolio state after `add_trade c2tr0` on a 1000-unit account with
commission 1 per lot. -/
def c2p1lit : Portfolio :=
  { Portfolio.init 1000 100 1 1 with
    balance := 999
    open_trades := [c2trA]
    total_trades := 1 }

/-- The open trade after a 50% partial close at 1.0020 (20 pips): half the
volume realized 100, stop moved to break-even, commission 1 + 0.5. -/
def c2trB : Trade :=
  { c2trA with
    stop_loss := 1
    status := TradeStatus.PARTIAL_CLOSE
    volume_open := 1/2
    volume_closed := 1/2
    profit := 100
    commission := 3/2
    break_even_triggered := true
    partialCloseTriggered := true }

/-- Portfolio state after the partial close (balance 999 + 100 - 0.5). -/
def c2p2lit : Portfolio :=
  { c2p1lit with
    balance := 2197/2
    open_trades := [c2trB] }

/-- One bar whose volume is zero, as in a volume-less forex feed. -/
def c3df : List BarV := [⟨0, 2, 1, 3, 0⟩]

def c5tr : Trade := mkTrade 1 "EURUSD" .BUY 0 1 (1/10) (9988/10000) (10024/10000) (10036/10000) ""

/-- An already fully closed trade. -/
def c6tr : Trade :=
  { mkTrade 7 "EURUSD" .SELL 5 1 (1/2) (1012/1000) (988/1000) (982/1000) "x" with
    status := .CLOSED }

def c7cfg : BTConfig := ⟨"EURUSD", 1, 1, 12, 2, 3⟩

/-- A portfolio inside its trading day: 3 trades taken, 10 units lost. -/
def c8p : Portfolio :=
  { Portfolio.init 100 100 0 1 with daily_trades := 3, daily_profit := -10 }

def c9tr : Trade := mkTrade 2 "USDJPY" .SELL 3 1 (3/10) (1012/1000) (988/1000) (982/1000) "y"

def c10tr : Trade := mkTrade 1 "EURUSD" .BUY 0 1 (1/10) (9988/10000) (10024/10000) (10036/10000) ""

/-- A commission-free portfolio holding one open BUY at entry 1.0000. -/
def c10p : Portfolio :=
  { Portfolio.init 100 100 0 1 with open_trades := [c10tr] }

/-! ## Helper lemmas -/

set_option maxRecDepth 8000

theorem length_ewmAux (a : ℚ) (l : List ℚ) : ∀ prev, (ewmAux a prev l).length = l.length := by
  induction l with
  | nil => intro prev; rfl
  | cons x xs ih => intro prev; simp [ewmAux, ih]

theorem length_ewm (a : ℚ) (l : List ℚ) : (ewm a l).length = l.length := by
  cases l with
  | nil => rfl
  | cons x xs => simp [ewm, length_ewmAux]

theorem length_gainsAux (l : List ℚ) : ∀ prev, (gainsAux prev l).length = l.length := by
  induction l with
  | nil => intro prev; rfl
  | cons x xs ih => intro prev; simp [gainsAux, ih]

theorem length_gains (l : List ℚ) : (gains l).length = l.length := by
  cases l with
  | nil => rfl
  | cons x xs => simp [gains, length_gainsAux]

theorem length_lossesAux (l : List ℚ) : ∀ prev, (lossesAux prev l).length = l.length := by
  induction l with
  | nil => intro prev; rfl
  | cons x xs ih => intro prev; simp [lossesAux, ih]

theorem length_losses (l : List ℚ) : (losses l).length = l.length := by
  cases l with
  | nil => rfl
  | cons x xs => simp [losses, length_lossesAux]

theorem length_avgGain (c : List ℚ) (p : ℕ) : (avgGain c p).length = c.length := by
  rw [avgGain, length_ewm, length_gains]

theorem length_avgLoss (c : List ℚ) (p : ℕ) : (avgLoss c p).length = c.length := by
  rw [avgLoss, length_ewm, length_losses]

/-- A positive average gain over a zero average loss yields RSI = 100 (the
ratio is `+inf`, so `100 - 100/(1+inf) = 100`), not NaN. -/
theorem rsiOf_pos_zero (g : ℚ) (hg : 0 < g) : rsiOf g 0 = .fin 100 := by
  have h1 : EF.div (.fin g) (.fin 0) = .pinf := by
    simp [EF.div, hg]
  unfold rsiOf
  rw [h1]
  with_unfolding_all decide

/-- Zero average gain over zero average loss is `0/0`, hence RSI is NaN. -/
theorem rsiOf_zero_zero : rsiOf 0 0 = .nan := by
  with_unfolding_all decide

/-- One `update_equity` call never lowers the recorded absolute max-drawdown. -/
theorem max_drawdown_step (p : Portfolio) (t : ℤ) (prices : String → Option ℚ) :
    p.max_drawdown ≤ (p.update_equity t prices).max_drawdown := by
  unfold Portfolio.update_equity
  dsimp only
  split <;> split <;> first
    | exact le_of_lt (by assumption)
    | exact le_refl _

theorem manageScan_mem_closes (trades : List Trade) (high low : ℚ) (t : Trade) (pr : ℚ)
    (r : String) (h : (t, pr, r) ∈ (manageScan trades high low).1) :
    manageAction t high low = .closeFull pr r := by
  induction trades with
  | nil => simp [manageScan] at h
  | cons hd tl ih =>
      rw [manageScan] at h
      cases hAct : manageAction hd high low with
      | closeFull p0 r0 =>
          rw [hAct] at h
          simp at h
          rcases h with ⟨rfl, rfl, rfl⟩ | hmem
          · exact hAct
          · exact ih hmem
      | partialAt p0 =>
          rw [hAct] at h
          exact ih h
      | hold =>
          rw [hAct] at h
          exact ih h

theorem manageScan_mem_partials (trades : List Trade) (high low : ℚ) (t : Trade) (pr : ℚ)
    (h : (t, pr) ∈ (manageScan trades high low).2) :
    manageAction t high low = .partialAt pr := by
  induction trades with
  | nil => simp [manageScan] at h
  | cons hd tl ih =>
      rw [manageScan] at h
      cases hAct : manageAction hd high low with
      | closeFull p0 r0 =>
          rw [hAct] at h
          exact ih h
      | partialAt p0 =>
          rw [hAct] at h
          simp at h
          rcases h with ⟨rfl, rfl⟩ | hmem
          · exact hAct
          · exact ih hmem
      | hold =>
          rw [hAct] at h
          exact ih h

theorem manageScan_closes_of_action (trades : List Trade) (high low : ℚ) (t : Trade)
    (pr : ℚ) (r : String) (hmem : t ∈ trades)
    (hAct : manageAction t high low = .closeFull pr r) :
    (t, pr, r) ∈ (manageScan trades high low).1 := by
  induction trades with
  | nil => simp at hmem
  | cons hd tl ih =>
      rw [manageScan]
      rcases List.mem_cons.mp hmem with rfl | hmem2
      · rw [hAct]
        exact List.mem_cons_self _ _
      · cases hA : manageAction hd high low with
        | closeFull p0 r0 => exact List.mem_cons_of_mem _ (ih hmem2)
        | partialAt p0 => exact ih hmem2
        | hold => exact ih hmem2

theorem manageScan_partials_of_action (trades : List Trade) (high low : ℚ) (t : Trade)
    (pr : ℚ) (hmem : t ∈ trades)
    (hAct : manageAction t high low = .partialAt pr) :
    (t, pr) ∈ (manageScan trades high low).2 := by
  induction trades with
  | nil => simp at hmem
  | cons hd tl ih =>
      rw [manageScan]
      rcases List.mem_cons.mp hmem with rfl | hmem2
      · rw [hAct]
        exact List.mem_cons_self _ _
      · cases hA : manageAction hd high low with
        | closeFull p0 r0 => exact ih hmem2
        | partialAt p0 => exact List.mem_cons_of_mem _ (ih hmem2)
        | hold => exact ih hmem2

/-- The computed lot size is always at least 0.01. -/
theorem lotSize_ge (balance risk entry sl : ℚ) :
    1 / 100 ≤ calculateLotSize balance risk entry sl := by
  unfold calculateLotSize
  dsimp only
  split
  · norm_num
  · refine le_trans (by norm_num) (le_max_left _ _)

/-- Every closed trade falls in exactly one `_basic_stats` bucket. -/
theorem basicStats_partition (trades : List Trade) :
    (basicStats trades).winners + (basicStats trades).losers + (basicStats trades).breakeven =
      (basicStats trades).total := by
  unfold basicStats
  dsimp only
  induction trades with
  | nil => rfl
  | cons hd tl ih =>
      simp only [List.countP_cons, List.length_cons]
      rcases lt_trichotomy hd.profit 0 with h | h | h
      · rw [if_neg (by simp [not_lt.mpr (le_of_lt h)]), if_pos (by simp [h]),
          if_neg (by simp [ne_of_lt h])]
        omega
      · rw [if_neg (by simp [h]), if_neg (by simp [h]), if_pos (by simp [h])]
        omega
      · rw [if_pos (by simp [h]), if_neg (by simp [not_lt.mpr (le_of_lt h)]),
          if_neg (by simp [ne_of_gt h])]
        omega

/-- Step 1 of the C2 run: opening the 1-lot BUY charges the entry commission. -/
theorem c2step1 : (Portfolio.init 1000 100 1 1).add_trade c2tr0 = c2p1lit := by
  norm_num [Portfolio.add_trade, Portfolio.init, c2p1lit, c2trA, c2tr0, mkTrade]

/-- Step 2 of the C2 run: the 50% partial close at 1.0020 realizes 100 minus
commission on the 0.5 lots closed in this event. -/
theorem c2step2 : c2p1lit.partialCloseTrade c2trA (1002/1000) 1 (1/2) = c2p2lit := by
  simp +decide only [Portfolio.partialCloseTrade, Portfolio.getPipValue, Trade.closePartial,
    Trade.pipsAt, Trade.move_to_break_even, replaceFirst, c2p2lit, c2p1lit, c2trB, c2trA,
    c2tr0, mkTrade, Portfolio.init, List.mem_cons, List.not_mem_nil]
  norm_num

/-- Step 3 of the C2 run: the final close at 1.0030 realizes 150 on the
remaining 0.5 lots but deducts commission on `volume_closed = 1.0` (the
cumulative closed volume), leaving balance 1247.5 and trade commission 2.5. -/
theorem c2step3 :
    (c2p2lit.close_trade c2trB (1003/1000) 2 "Take Profit Final").balance = 2495/2 ∧
    ((c2p2lit.close_trade c2trB (1003/1000) 2 "Take Profit Final").closed_trades.map
      Trade.commission) = [5/2] := by
  simp +decide only [Portfolio.close_trade, Portfolio.getPipValue, Trade.close,
    Trade.pipsAt, c2p2lit, c2p1lit, c2trB, c2trA, c2tr0, mkTrade, Portfolio.init,
    List.mem_cons, List.not_mem_nil, List.map_cons, List.map_nil, List.map_append]
  norm_num

/-! ## Claim theorems -/

/-- C1 (amended): across any run of successive `update_equity` calls the
recorded absolute max-drawdown `max_drawdown` is non-decreasing; the
percentage `max_drawdown_percent` is re-recorded only together with a new
absolute maximum and is not itself monotone (see the counterexample). -/
theorem C1_amended_abs_drawdown_monotone (p : Portfolio)
    (us : List (ℤ × (String → Option ℚ))) :
    p.max_drawdown ≤ (runUpdates p us).max_drawdown := by
  induction us generalizing p with
  | nil => simp [runUpdates]
  | cons u rest ih =>
      have h1 := max_drawdown_step p u.1 u.2
      have h2 := ih (p.update_equity u.1 u.2)
      have h3 : runUpdates p (u :: rest) = runUpdates (p.update_equity u.1 u.2) rest := by
        simp [runUpdates]
      rw [h3]
      exact le_trans h1 h2

/-- C1 counterexample: in the concrete run `c1p1 → c1p3` (equity 90 at peak
100, then peak 1000, then equity 989), a later `update_equity` records
`max_drawdown_percent = 1.1` after an earlier call had recorded `10`, so the
percentage is not non-decreasing. -/
theorem C1_counterexample : c1p3.max_drawdown_percent < c1p1.max_drawdown_percent := by
  with_unfolding_all decide

/-- C2: evaluating `Portfolio.close_trade` after a 50% partial close of a
1-lot trade with commission 1 per lot: the final close deducts commission on
the cumulative closed volume (1.0 lot), so the trade ends with total
commission 2.5 and the balance ends at 1247.5 — not commission 2.0 and
balance 1248.0 as per-event commission (the claim) would give. -/
theorem C2_exit_commission_on_cumulative_volume :
    ((((Portfolio.init 1000 100 1 1).add_trade c2tr0).partialCloseTrade c2trA (1002/1000) 1
        (1/2)).close_trade c2trB (1003/1000) 2 "Take Profit Final").balance = 2495/2 ∧
    (((((Portfolio.init 1000 100 1 1).add_trade c2tr0).partialCloseTrade c2trA (1002/1000) 1
        (1/2)).close_trade c2trB (1003/1000) 2 "Take Profit Final").closed_trades.map
      Trade.commission) = [5/2] := by
  rw [c2step1, c2step2]
  exact c2step3

/-- C3 (amended): `_add_vwap` has no zero-volume fallback; when every bar's
volume is zero, every entry of the vwap column is the NaN of `0/0`. -/
theorem C3_amended_vwap_all_nan (df : List BarV) (hv : ∀ b ∈ df, b.volume = 0) (i : ℕ) :
    vwapAt df i = EF.nan := by
  unfold vwapAt
  dsimp only
  have hgrp : ∀ b ∈ (df.take (i + 1)).filter
      (fun b => decide (b.date = (df.getD i ⟨0, 0, 0, 0, 0⟩).date)), b.volume = 0 := by
    intro b hb
    exact hv b ((List.take_sublist (i + 1) df).subset (List.mem_of_mem_filter hb))
  have hnum : (((df.take (i + 1)).filter
      (fun b => decide (b.date = (df.getD i ⟨0, 0, 0, 0, 0⟩).date))).map
        (fun b => typicalPrice b * b.volume)).sum = 0 := by
    apply List.sum_eq_zero
    intro x hx
    obtain ⟨b, hb, rfl⟩ := List.mem_map.mp hx
    rw [hgrp b hb, mul_zero]
  have hden : (((df.take (i + 1)).filter
      (fun b => decide (b.date = (df.getD i ⟨0, 0, 0, 0, 0⟩).date))).map BarV.volume).sum = 0 := by
    apply List.sum_eq_zero
    intro x hx
    obtain ⟨b, hb, rfl⟩ := List.mem_map.mp hx
    exact hgrp b hb
  rw [hnum, hden]
  with_unfolding_all decide

/-- Witness for C3: the amended theorem applied to the concrete zero-volume
one-bar frame. -/
theorem C3_witness : vwapAt c3df 0 = EF.nan :=
  C3_amended_vwap_all_nan c3df (by intro b hb; simp [c3df] at hb; rw [hb]) 0

/-- C3 counterexample: on a frame whose volume column is zero throughout, the
vwap column does contain NaN (so no SMA-20 fallback prevented it). -/
theorem C3_counterexample :
    (∀ b ∈ c3df, b.volume = 0) ∧ (vwapCol c3df).getD 0 (.fin 0) = EF.nan := by
  constructor
  · intro b hb
    simp [c3df] at hb
    rw [hb]
  · with_unfolding_all decide

/-- C4 (amended): at an index whose EMA-smoothed average loss is zero, the RSI
is 100 when the average gain is positive (`rs = +inf`), and NaN only when the
average gain is also zero (`rs = 0/0`, e.g. index 0). -/
theorem C4_amended_rsi_zero_loss (closes : List ℚ) (p i : ℕ) (hi : i < closes.length)
    (hl : (avgLoss closes p).getD i 1 = 0) :
    (0 < (avgGain closes p).getD i 0 → (rsiCol closes p).getD i .nan = .fin 100) ∧
    ((avgGain closes p).getD i 0 = 0 → (rsiCol closes p).getD i (.fin 0) = .nan) := by
  have hG : i < (avgGain closes p).length := by rw [length_avgGain]; exact hi
  have hL : i < (avgLoss closes p).length := by rw [length_avgLoss]; exact hi
  have hR : i < (rsiCol closes p).length := by
    simp only [rsiCol]
    rw [List.length_zipWith, length_avgGain, length_avgLoss]
    simpa using hi
  have hzip : ∀ d : EF, (rsiCol closes p).getD i d =
      rsiOf ((avgGain closes p).getD i 0) ((avgLoss closes p).getD i 1) := by
    intro d
    rw [List.getD_eq_getElem _ _ hR, List.getD_eq_getElem _ _ hG, List.getD_eq_getElem _ _ hL]
    simp only [rsiCol]
    exact List.getElem_zipWith
  constructor
  · intro hg
    rw [hzip, hl, rsiOf_pos_zero _ hg]
  · intro hg
    rw [hzip, hl, hg, rsiOf_zero_zero]

/-- Witness for C4: the amended theorem applied to the strictly rising closes
`[1, 2, 3]` at index 2 with the default period 14. -/
theorem C4_witness :
    (0 < (avgGain [1, 2, 3] 14).getD 2 0 → (rsiCol [1, 2, 3] 14).getD 2 .nan = .fin 100) ∧
    ((avgGain [1, 2, 3] 14).getD 2 0 = 0 → (rsiCol [1, 2, 3] 14).getD 2 (.fin 0) = .nan) :=
  C4_amended_rsi_zero_loss [1, 2, 3] 14 2 (by decide) (by with_unfolding_all decide)

/-- C4 counterexample: on the strictly rising closes `[1, 2, 3]` the average
loss at index 2 is zero, yet the RSI there is 100, not NaN. -/
theorem C4_counterexample :
    (avgLoss [1, 2, 3] 14).getD 2 1 = 0 ∧
    (rsiCol [1, 2, 3] 14).getD 2 .nan = .fin 100 ∧ (EF.fin 100 ≠ .nan) := by
  refine ⟨?_, ?_, ?_⟩
  · with_unfolding_all decide
  · with_unfolding_all decide
  · with_unfolding_all decide

/-- C5: within one bar's management pass, for every open trade at most one
close path is enqueued, with stop loss first, then final take profit, then
(only when neither fires) the one-time partial take profit. -/
theorem C5_close_priority (trades : List Trade) (t : Trade) (high low : ℚ)
    (hmem : t ∈ trades) :
    (t.check_stop_loss (slCheckPrice t high low) = true →
      (t, t.stop_loss, "Stop Loss") ∈ (manageScan trades high low).1 ∧
      ∀ pr, (t, pr) ∉ (manageScan trades high low).2) ∧
    (t.check_stop_loss (slCheckPrice t high low) = false →
      t.check_take_profit_final (tpCheckPrice t high low) = true →
      (t, t.take_profit_final, "Take Profit Final") ∈ (manageScan trades high low).1 ∧
      ∀ pr, (t, pr) ∉ (manageScan trades high low).2) ∧
    (t.check_stop_loss (slCheckPrice t high low) = false →
      t.check_take_profit_final (tpCheckPrice t high low) = false →
      t.checkTakeProfitPartial (tpCheckPrice t high low) = true →
      (t, t.takeProfitPartial) ∈ (manageScan trades high low).2 ∧
      ∀ pr r, (t, pr, r) ∉ (manageScan trades high low).1) := by
  refine ⟨?_, ?_, ?_⟩
  · intro hsl
    have hAct : manageAction t high low = .closeFull t.stop_loss "Stop Loss" := by
      unfold manageAction
      rw [hsl]
      simp
    refine ⟨manageScan_closes_of_action _ _ _ _ _ _ hmem hAct, ?_⟩
    intro pr hp
    have := manageScan_mem_partials _ _ _ _ _ hp
    rw [hAct] at this
    exact absurd this (by simp)
  · intro hsl htp
    have hAct : manageAction t high low = .closeFull t.take_profit_final "Take Profit Final" := by
      unfold manageAction
      rw [hsl, htp]
      simp
    refine ⟨manageScan_closes_of_action _ _ _ _ _ _ hmem hAct, ?_⟩
    intro pr hp
    have := manageScan_mem_partials _ _ _ _ _ hp
    rw [hAct] at this
    exact absurd this (by simp)
  · intro hsl htpf htpp
    have hAct : manageAction t high low = .partialAt t.takeProfitPartial := by
      unfold manageAction
      rw [hsl, htpf, htpp]
      simp
    refine ⟨manageScan_partials_of_action _ _ _ _ _ hmem hAct, ?_⟩
    intro pr r hp
    have := manageScan_mem_closes _ _ _ _ _ _ hp
    rw [hAct] at this
    exact absurd this (by simp)

/-- Witness for C5: a BUY whose bar low touches the stop is enqueued for a
full close at the stop price and for no partial close. -/
theorem C5_witness :
    (c5tr, c5tr.stop_loss, "Stop Loss") ∈ (manageScan [c5tr] (999/1000) (9985/10000)).1 ∧
    ∀ pr, (c5tr, pr) ∉ (manageScan [c5tr] (999/1000) (9985/10000)).2 :=
  (C5_close_priority [c5tr] c5tr (999/1000) (9985/10000) (by simp)).1
    (by with_unfolding_all decide)

/-- C6: `Trade.close` and `Trade.close_partial` on an already CLOSED trade
return zero profit and leave the trade unchanged, and `Portfolio.close_trade`
and `partial_close_trade` on a trade not in the open collection leave the
portfolio unchanged. -/
theorem C6_closed_noop (t : Trade) (hc : t.status = .CLOSED) (p : Portfolio) (t2 : Trade)
    (hn : t2 ∉ p.open_trades) (price pv pct : ℚ) (tm : ℤ) (r : String) :
    t.close price tm pv r = (t, 0) ∧
    t.closePartial price tm pv pct = (t, 0) ∧
    p.close_trade t2 price tm r = p ∧
    p.partialCloseTrade t2 price tm pct = p := by
  refine ⟨?_, ?_, ?_, ?_⟩
  · unfold Trade.close
    rw [if_pos hc]
  · unfold Trade.closePartial
    rw [if_pos hc]
  · unfold Portfolio.close_trade
    rw [if_neg hn]
  · unfold Portfolio.partialCloseTrade
    rw [if_neg hn]

/-- Witness for C6 at a concrete closed trade and a portfolio that does not
hold it. -/
theorem C6_witness :
    c6tr.close (99/100) 9 1 "r" = (c6tr, 0) ∧
    c6tr.closePartial (99/100) 9 1 (1/2) = (c6tr, 0) ∧
    (Portfolio.init 500 100 0 1).close_trade c6tr (99/100) 9 "r" = Portfolio.init 500 100 0 1 ∧
    (Portfolio.init 500 100 0 1).partialCloseTrade c6tr (99/100) 9 (1/2) =
      Portfolio.init 500 100 0 1 :=
  C6_closed_noop c6tr rfl (Portfolio.init 500 100 0 1) c6tr (by simp [Portfolio.init]) (99/100)
    1 (1/2) 9 "r"

/-- C7: for every balance (zero and negative included) the lot size is at
least 0.01, is an integer multiple of 0.01, equals 0.01 when the stop-loss
distance is zero, and consequently `_open_trade` never takes its
`volume <= 0` skip branch: a trade is always created. -/
theorem C7_lot_size_min (balance risk entry sl : ℚ) (cfg : BTConfig) (sig : SignalType)
    (bar_close : ℚ) (tm : ℤ) (tk : ℕ) :
    1 / 100 ≤ calculateLotSize balance risk entry sl ∧
    (∃ k : ℤ, calculateLotSize balance risk entry sl = (k : ℚ) / 100) ∧
    (entry = sl → calculateLotSize balance risk entry sl = 1 / 100) ∧
    (openTrade cfg sig bar_close tm balance tk).isSome = true := by
  refine ⟨lotSize_ge balance risk entry sl, ?_, ?_, ?_⟩
  · unfold calculateLotSize
    dsimp only
    split
    · exact ⟨1, by norm_num⟩
    · rcases max_choice (0.01 : ℚ)
        (round2 (balance * (risk / 100) / (|entry - sl| * 10000 * 10))) with h | h
      · rw [h]
        exact ⟨1, by norm_num⟩
      · rw [h]
        exact ⟨roundHalfEven (balance * (risk / 100) / (|entry - sl| * 10000 * 10) * 100), rfl⟩
  · intro he
    unfold calculateLotSize
    dsimp only
    rw [if_pos (by rw [he]; simp)]
    norm_num
  · have hv := lotSize_ge balance cfg.risk_per_trade
      (if sig = .BUY then bar_close + cfg.spread_pips * 0.0001 else bar_close)
      (match (if sig = .BUY then TradeType.BUY else TradeType.SELL) with
        | .BUY => (if sig = .BUY then bar_close + cfg.spread_pips * 0.0001 else bar_close) -
            cfg.stop_loss_pips * 0.0001
        | .SELL => (if sig = .BUY then bar_close + cfg.spread_pips * 0.0001 else bar_close) +
            cfg.stop_loss_pips * 0.0001)
    unfold openTrade
    dsimp only
    rw [if_neg (by intro hle; linarith)]
    rfl

/-- Witness for C7 at balance 0 with a zero stop-loss distance, plus a
concrete `openTrade` call that does create a trade. -/
theorem C7_witness :
    1 / 100 ≤ calculateLotSize 0 1 1 1 ∧
    (∃ k : ℤ, calculateLotSize 0 1 1 1 = (k : ℚ) / 100) ∧
    ((1 : ℚ) = 1 → calculateLotSize 0 1 1 1 = 1 / 100) ∧
    (openTrade c7cfg .BUY 1 0 0 1).isSome = true :=
  C7_lot_size_min 0 1 1 1 c7cfg .BUY 1 0 1

/-- C8: `check_daily_limits` returns false exactly when the daily trade count
has reached the maximum, or the daily profit is negative and its magnitude as
a percentage of the current balance reaches the loss threshold; and after
`reset_daily_stats`, the first check of the new day (with a positive trade
limit) returns true.  (`balance ≠ 0` reflects that Python would raise
`ZeroDivisionError` there.) -/
theorem C8_daily_limits (p : Portfolio) (max_trades : ℕ) (max_loss_percent : ℚ)
    (_hb : p.balance ≠ 0) (hmt : 0 < max_trades) :
    (p.check_daily_limits max_trades max_loss_percent = false ↔
      (max_trades ≤ p.daily_trades ∨
        (p.daily_profit < 0 ∧ max_loss_percent ≤ |p.daily_profit| / p.balance * 100))) ∧
    (p.reset_daily_stats).check_daily_limits max_trades max_loss_percent = true := by
  constructor
  · unfold Portfolio.check_daily_limits
    by_cases h1 : max_trades ≤ p.daily_trades
    · simp [h1]
    · by_cases h2 : p.daily_profit < 0 ∧ max_loss_percent ≤ |p.daily_profit| / p.balance * 100
      · simp [h1, h2]
      · simp [h1, h2]
  · unfold Portfolio.reset_daily_stats Portfolio.check_daily_limits
    dsimp only
    rw [if_neg (by omega)]
    rw [if_neg (by simp)]

/-- Witness for C8 at a portfolio that has used 3 of 3 daily trades with a
10-unit daily loss on a 100-unit balance. -/
theorem C8_witness :
    (c8p.check_daily_limits 3 5 = false ↔
      (3 ≤ c8p.daily_trades ∨
        (c8p.daily_profit < 0 ∧ (5 : ℚ) ≤ |c8p.daily_profit| / c8p.balance * 100))) ∧
    (c8p.reset_daily_stats).check_daily_limits 3 5 = true :=
  C8_daily_limits c8p 3 5 (by norm_num [c8p, Portfolio.init]) (by norm_num)

/-- C9: `volume_open + volume_closed = volume` holds at creation and is
preserved exactly (so in particular within any tolerance) by profit updates,
partial closes with any fraction, and full closes. -/
theorem C9_volume_invariant (ticket : ℕ) (symbol : String) (ty : TradeType) (etime : ℤ)
    (eprice vol sl tpp tpf : ℚ) (cmt : String) (t : Trade) (h : volInv t)
    (cp pv pct pr : ℚ) (tm : ℤ) (r : String) :
    volInv (mkTrade ticket symbol ty etime eprice vol sl tpp tpf cmt) ∧
    volInv (t.update_profit cp pv) ∧
    volInv (t.closePartial pr tm pv pct).1 ∧
    volInv (t.close pr tm pv r).1 := by
  refine ⟨?_, ?_, ?_, ?_⟩
  · unfold volInv mkTrade
    dsimp only
    ring
  · unfold Trade.update_profit
    split
    · exact h
    · unfold volInv at h ⊢
      dsimp only
      exact h
  · unfold Trade.closePartial
    split
    · exact h
    · unfold volInv at h ⊢
      dsimp only
      linarith [h]
  · unfold Trade.close
    split
    · exact h
    · unfold volInv at h ⊢
      dsimp only
      linarith [h]

/-- Witness for C9 at a concrete 0.3-lot SELL. -/
theorem C9_witness :
    volInv (mkTrade 2 "USDJPY" .SELL 3 1 (3/10) (1012/1000) (988/1000) (982/1000) "y") ∧
    volInv (c9tr.update_profit (99/100) 30) ∧
    volInv (c9tr.closePartial (99/100) 4 30 (1/2)).1 ∧
    volInv (c9tr.close (99/100) 4 30 "z").1 :=
  C9_volume_invariant 2 "USDJPY" .SELL 3 1 (3/10) (1012/1000) (988/1000) (982/1000) "y" c9tr
    (by norm_num [volInv, c9tr, mkTrade]) (99/100) 30 (1/2) (99/100) 4 "z"

/-- C10: when the net profit of a full-close event (after exit commission) is
exactly zero, `close_trade` counts the trade as losing (strict `> 0` decides
winners) and adds nothing to gross loss; the statistics engine keeps breakeven
trades in their own bucket, which partitions the closed-trade list together
with the strict winners and strict losers. -/
theorem C10_breakeven_counted_losing (p : Portfolio) (t : Trade) (price : ℚ) (tm : ℤ)
    (r : String) (trades : List Trade) (hmem : t ∈ p.open_trades)
    (hz : (t.close price tm (Portfolio.getPipValue t.symbol t.volume) r).2 -
      p.commission_per_lot *
        (t.close price tm (Portfolio.getPipValue t.symbol t.volume) r).1.volume_closed = 0) :
    (p.close_trade t price tm r).winning_trades = p.winning_trades ∧
    (p.close_trade t price tm r).losing_trades = p.losing_trades + 1 ∧
    (p.close_trade t price tm r).gross_loss = p.gross_loss ∧
    (basicStats trades).winners + (basicStats trades).losers + (basicStats trades).breakeven =
      (basicStats trades).total := by
  unfold Portfolio.close_trade
  rw [if_pos hmem]
  dsimp only
  rw [hz]
  norm_num
  exact basicStats_partition trades

/-- Witness for C10: closing the open BUY at its entry price with zero
commission is a breakeven event tallied as a loss. -/
theorem C10_witness :
    (c10p.close_trade c10tr 1 5 "End of backtest").winning_trades = c10p.winning_trades ∧
    (c10p.close_trade c10tr 1 5 "End of backtest").losing_trades = c10p.losing_trades + 1 ∧
    (c10p.close_trade c10tr 1 5 "End of backtest").gross_loss = c10p.gross_loss ∧
    (basicStats []).winners + (basicStats []).losers + (basicStats []).breakeven =
      (basicStats []).total :=
  C10_breakeven_counted_losing c10p c10tr 1 5 "End of backtest" [] (by simp [c10p])
    (by with_unfolding_all decide)
